import Mathlib

/-!
Shallow embedding of the Servo GPU buffer mapping lifecycle
(`src/components/script/dom/webgpu/gpubuffer.rs`) and of the VTTRegion
scalar-property object (`src/components/script/dom/vttregion.rs`).

Modelling conventions:
* Rust machine integers (`u64`, `u32`, 64-bit `usize`) are `Nat`s; an
  arithmetic operation that can overflow or underflow in the source is
  modelled explicitly, with overflow treated as a program error (a panic
  under Rust's checked arithmetic), surfaced as an explicit `panic`
  outcome or a `panicked` flag.
* Promises are identified by their index into a promise store
  (`List PromiseState`); `Rc<Promise>` identity comparison becomes index
  equality, and `reject_error` / `resolve_native` update the store.
* The outbound `WebGPU` channel is modelled by a `channelOk` flag plus the
  list of messages actually delivered; a failed send is recorded as a
  logged warning, exactly as the source's `warn!` calls.
* `DataBlock` (the Shared Memory Block) lives in
  `dom/bindings/buffer_source.rs`, which is outside the excerpt; its
  operations are modelled from the spec (see the doc comments below).
* `Finite<f64>` in the region object is modelled as `ℚ`: the setters
  perform no floating-point arithmetic, only order comparisons against 0
  and 100 and storage, and finite doubles embed order-faithfully into ℚ.
-/

/-- Error kinds from `crate::dom::bindings::error::Error` that these two
files use: `Operation`, `Abort`, `Range(String)` and `IndexSize` (the
"range" error of the WebVTT region setters). -/
inductive Error where
  | Operation : Error
  | Abort : Error
  | Range : String → Error
  | IndexSize : Error
deriving DecidableEq, Repr

/-- `wgpu_types::MAP_ALIGNMENT`. -/
def MAP_ALIGNMENT : Nat := 8

/-- `wgpu_types::COPY_BUFFER_ALIGNMENT`. -/
def COPY_BUFFER_ALIGNMENT : Nat := 4

/-- `wgpu_core::device::HostMap`. -/
inductive HostMap where
  | Read : HostMap
  | Write : HostMap
deriving DecidableEq, Repr

/-- `GPUMapModeConstants::READ` (WebGPU IDL: 0x0001). -/
def GPUMapModeConstants.READ : Nat := 1

/-- `GPUMapModeConstants::WRITE` (WebGPU IDL: 0x0002). -/
def GPUMapModeConstants.WRITE : Nat := 2

/-- The Shared Memory Block: a byte region plus the set of outstanding
views carved from it. The bytes are `Nat`s standing for `u8` values. -/
structure DataBlock where
  data : List Nat
  views : List (Nat × Nat)
deriving DecidableEq, Repr

/-- Modelled from the spec: `DataBlock::new_zeroed` is defined in
`dom/bindings/buffer_source.rs`, outside the excerpt; the spec says
"Construction zero-fills". -/
def DataBlock.new_zeroed (size : Nat) : DataBlock :=
  { data := List.replicate size 0, views := [] }

/-- Modelled from the spec: `DataBlock::clear_views` invalidates all
outstanding views atomically; the byte contents are untouched. -/
def DataBlock.clear_views (b : DataBlock) : DataBlock :=
  { b with views := [] }

/-- Modelled from the spec: `DataBlock::view` produces a bounded
non-owning view; "View creation fails (rather than panicking) if the
requested sub-range exceeds the block's extent". On success the view's
bytes and the block with the view recorded as outstanding are returned. -/
def DataBlock.view (b : DataBlock) (lo hi : Nat) :
    Option (List Nat × DataBlock) :=
  if lo ≤ hi ∧ hi ≤ b.data.length then
    some ((b.data.drop lo).take (hi - lo),
      { b with views := (lo, hi) :: b.views })
  else
    none

/-- `ActiveBufferMapping`: mode is a `GPUMapModeFlags` (`u32`), range is a
`Range<u64>` given as (start, end). -/
structure ActiveBufferMapping where
  data : DataBlock
  mode : Nat
  range : Nat × Nat
deriving DecidableEq, Repr

/-- Outcome of a fallible Rust computation, with arithmetic overflow (a
program error, a panic under Rust's checked arithmetic) kept apart from
the `Err` results the function returns. -/
inductive RustResult (α : Type) where
  | ok : α → RustResult α
  | err : Error → RustResult α
  | panic : RustResult α
deriving DecidableEq, Repr

/-- `ActiveBufferMapping::new`. Step 1 computes `range.end - range.start`
in `u64`; underflow (`range.end < range.start`) is an arithmetic program
error. Step 2 rejects sizes above `(1 << 53) - 1`. The `usize` conversion
is modelled for a 64-bit host, where it fails only above `2 ^ 64` (dead,
since the ceiling check runs first). -/
def ActiveBufferMapping.new (mode : Nat) (range : Nat × Nat) :
    RustResult ActiveBufferMapping :=
  if range.2 < range.1 then
    .panic
  else if 2 ^ 53 - 1 < range.2 - range.1 then
    .err (.Range "Over MAX_SAFE_INTEGER")
  else if 2 ^ 64 ≤ range.2 - range.1 then
    .err (.Range "Over usize")
  else
    .ok { data := DataBlock.new_zeroed (range.2 - range.1), mode := mode,
          range := range }

/-- State of one promise in the promise store. -/
inductive PromiseState where
  | pending : PromiseState
  | resolved : PromiseState
  | rejected : Error → PromiseState
deriving DecidableEq, Repr

/-- `promise.reject_error(e)`: promise `p` becomes rejected with `e`. -/
def rejectPromise (ps : List PromiseState) (p : Nat) (e : Error) :
    List PromiseState :=
  ps.set p (.rejected e)

/-- `promise.resolve_native(&())`: promise `p` becomes resolved. -/
def resolvePromise (ps : List PromiseState) (p : Nat) : List PromiseState :=
  ps.set p .resolved

/-- `promise.is_rejected()`. -/
def promiseIsRejected (ps : List PromiseState) (p : Nat) : Bool :=
  match ps[p]? with
  | some (.rejected _) => true
  | _ => false

/-- `promise.is_pending()`. -/
def promiseIsPending (ps : List PromiseState) (p : Nat) : Bool :=
  match ps[p]? with
  | some .pending => true
  | _ => false

/-- `webgpu_traits::Mapping`: the payload of a map completion or of an
unmap write-back. -/
structure MappingPayload where
  data : List Nat
  range : Nat × Nat
  mode : HostMap
deriving DecidableEq, Repr

/-- The `WebGPURequest` messages this file sends on the channel. -/
inductive WebGPURequest where
  | BufferMapAsync : Nat → Nat → HostMap → Nat → Option Nat → WebGPURequest
  | UnmapBuffer : Nat → Option MappingPayload → WebGPURequest
  | DestroyBuffer : Nat → WebGPURequest
deriving DecidableEq, Repr

/-- The script-side `GPUBuffer` state: identity, owning device identity,
declared size (`GPUSize64`), usage flags, the pending-map promise slot and
the active mapping slot. -/
structure GPUBuffer where
  buffer : Nat
  deviceId : Nat
  size : Nat
  usage : Nat
  pending_map : Option Nat
  mapping : Option ActiveBufferMapping
deriving DecidableEq, Repr

/-- `GPUBufferMapState`. -/
inductive GPUBufferMapState where
  | Unmapped : GPUBufferMapState
  | Pending : GPUBufferMapState
  | Mapped : GPUBufferMapState
deriving DecidableEq, Repr

/-- `GPUBuffer::MapState`: mapped if a mapping is installed, else pending
if a map request is pending, else unmapped. -/
def GPUBuffer.MapState (b : GPUBuffer) : GPUBufferMapState :=
  if b.mapping.isSome then .Mapped
  else if b.pending_map.isSome then .Pending
  else .Unmapped

/-- Result of `map_failure` / `map_success`: the buffer and promise store
afterwards, the messages delivered on the channel, and whether an
`assert!` or an arithmetic program error fired (`panicked`). -/
structure StepResult where
  buffer : GPUBuffer
  promises : List PromiseState
  sent : List WebGPURequest
  panicked : Bool
deriving DecidableEq, Repr

/-- `GPUBuffer::map_failure`. A completion whose promise is not the
pending one only checks `assert!(p.is_rejected())` and returns; a matching
one checks `assert!(p.is_pending())`, clears the pending slot and rejects
with `Abort` when the device is lost, `Operation` otherwise. -/
def GPUBuffer.map_failure (b : GPUBuffer) (ps : List PromiseState)
    (deviceLost : Bool) (p : Nat) : StepResult :=
  if b.pending_map ≠ some p then
    { buffer := b, promises := ps, sent := [],
      panicked := !promiseIsRejected ps p }
  else if !promiseIsPending ps p then
    { buffer := b, promises := ps, sent := [], panicked := true }
  else
    { buffer := { b with pending_map := none },
      promises := rejectPromise ps p (if deviceLost then .Abort else .Operation),
      sent := [], panicked := false }

/-- `GPUBuffer::map_success`. After the same handle checks as
`map_failure`, a candidate `ActiveBufferMapping` is built from the
delivered mode and range; on error the pending slot is cleared and the
promise rejected with that error; on success the snapshot bytes are loaded
(`DataBlock::load`, modelled from the spec: a source of mismatched length
is a precondition violation, i.e. a panic), the mapping installed, the
pending slot cleared and the promise resolved. -/
def GPUBuffer.map_success (b : GPUBuffer) (ps : List PromiseState)
    (p : Nat) (wgpu : MappingPayload) : StepResult :=
  if b.pending_map ≠ some p then
    { buffer := b, promises := ps, sent := [],
      panicked := !promiseIsRejected ps p }
  else if !promiseIsPending ps p then
    { buffer := b, promises := ps, sent := [], panicked := true }
  else
    match ActiveBufferMapping.new
        (match wgpu.mode with
          | .Read => GPUMapModeConstants.READ
          | .Write => GPUMapModeConstants.WRITE)
        wgpu.range with
    | .panic => { buffer := b, promises := ps, sent := [], panicked := true }
    | .err e =>
      { buffer := { b with pending_map := none },
        promises := rejectPromise ps p e, sent := [], panicked := false }
    | .ok m =>
      if wgpu.data.length ≠ m.data.data.length then
        { buffer := b, promises := ps, sent := [], panicked := true }
      else
        { buffer := { b with
            mapping := some { m with data := { m.data with data := wgpu.data } },
            pending_map := none },
          promises := resolvePromise ps p, sent := [], panicked := false }

/-- Result of `MapAsync`: a `StepResult` plus the promise the call
returned and the count of validation errors dispatched to the device. -/
structure MapAsyncResult where
  buffer : GPUBuffer
  promises : List PromiseState
  sent : List WebGPURequest
  warnings : Nat
  validationErrors : Nat
  panicked : Bool
  promiseId : Nat
deriving DecidableEq, Repr

/-- `GPUBuffer::MapAsync`. A fresh promise is created first; if a map
request is already pending the fresh promise is rejected with `Operation`
and nothing else happens. Otherwise the fresh promise is installed as
pending; an invalid mode dispatches a validation error to the device and
runs `map_failure` on the fresh promise locally; a channel send failure
logs a warning and does the same; otherwise the `BufferMapAsync` request
is delivered. -/
def GPUBuffer.MapAsync (b : GPUBuffer) (ps : List PromiseState)
    (channelOk deviceLost : Bool) (mode offset : Nat) (size : Option Nat) :
    MapAsyncResult :=
  let p := ps.length
  let ps1 := ps ++ [PromiseState.pending]
  if b.pending_map.isSome then
    { buffer := b, promises := rejectPromise ps1 p .Operation, sent := [],
      warnings := 0, validationErrors := 0, panicked := false, promiseId := p }
  else
    let b1 : GPUBuffer := { b with pending_map := some p }
    if mode = GPUMapModeConstants.READ ∨ mode = GPUMapModeConstants.WRITE then
      let hostMap : HostMap :=
        if mode = GPUMapModeConstants.READ then .Read else .Write
      if channelOk then
        { buffer := b1, promises := ps1,
          sent := [.BufferMapAsync b1.buffer b1.deviceId hostMap offset size],
          warnings := 0, validationErrors := 0, panicked := false,
          promiseId := p }
      else
        let r := b1.map_failure ps1 deviceLost p
        { buffer := r.buffer, promises := r.promises, sent := [],
          warnings := 1, validationErrors := 0, panicked := r.panicked,
          promiseId := p }
    else
      let r := b1.map_failure ps1 deviceLost p
      { buffer := r.buffer, promises := r.promises, sent := [],
        warnings := 0, validationErrors := 1, panicked := r.panicked,
        promiseId := p }

/-- Result of `Unmap` / `Destroy`: `droppedMapping` records the cleared
`ActiveBufferMapping` (after `clear_views`) when one was installed. -/
structure UnmapResult where
  buffer : GPUBuffer
  promises : List PromiseState
  sent : List WebGPURequest
  warnings : Nat
  droppedMapping : Option ActiveBufferMapping
deriving DecidableEq, Repr

/-- `GPUBuffer::Unmap`. Step 1 rejects a pending promise with `Abort` and
clears the slot; step 2 takes the mapping and returns if none; otherwise
all views are invalidated and an `UnmapBuffer` message is sent carrying
the block's bytes, range and write mode when the mapping mode is at least
`WRITE`, and no payload otherwise; a send failure is only logged. -/
def GPUBuffer.Unmap (b : GPUBuffer) (ps : List PromiseState)
    (channelOk : Bool) : UnmapResult :=
  let ps2 := match b.pending_map with
    | some p => rejectPromise ps p .Abort
    | none => ps
  let b2 : GPUBuffer := { b with pending_map := none }
  match b2.mapping with
  | none =>
    { buffer := b2, promises := ps2, sent := [], warnings := 0,
      droppedMapping := none }
  | some m =>
    let b3 : GPUBuffer := { b2 with mapping := none }
    let m2 : ActiveBufferMapping := { m with data := m.data.clear_views }
    let msg := WebGPURequest.UnmapBuffer b3.buffer
      (if GPUMapModeConstants.WRITE ≤ m2.mode then
        some { data := m2.data.data, range := m2.range, mode := HostMap.Write }
      else
        none)
    if channelOk then
      { buffer := b3, promises := ps2, sent := [msg], warnings := 0,
        droppedMapping := some m2 }
    else
      { buffer := b3, promises := ps2, sent := [], warnings := 1,
        droppedMapping := some m2 }

/-- `GPUBuffer::Destroy`: `Unmap` followed by a best-effort
`DestroyBuffer` send. -/
def GPUBuffer.Destroy (b : GPUBuffer) (ps : List PromiseState)
    (channelOk : Bool) : UnmapResult :=
  let r := b.Unmap ps channelOk
  if channelOk then
    { r with sent := r.sent ++ [.DestroyBuffer r.buffer.buffer] }
  else
    { r with warnings := r.warnings + 1 }

/-- Outcome of `GetMappedRange`: the view's bytes and the buffer with the
view recorded, a thrown error, or an arithmetic program error. -/
inductive GmrResult where
  | ok : List Nat → GPUBuffer → GmrResult
  | err : Error → GmrResult
  | panic : GmrResult
deriving DecidableEq, Repr

/-- `GPUBuffer::GetMappedRange`. An omitted size resolves to
`self.size.saturating_sub(offset)`, which is exactly `Nat` subtraction.
The `valid` check uses Rust's short-circuit `&&`, so `offset + range_size`
(raw `u64` addition, overflow is a program error) is evaluated only when
the first three conjuncts hold. On success the offset is rebased by
`mapping.range.start` and a view is carved from the block (the `usize`
addition in the view range is likewise checked). -/
def GPUBuffer.GetMappedRange (b : GPUBuffer) (offset : Nat)
    (size : Option Nat) : GmrResult :=
  let range_size := size.getD (b.size - offset)
  match b.mapping with
  | none => .err .Operation
  | some m =>
    if offset % MAP_ALIGNMENT = 0 ∧ range_size % COPY_BUFFER_ALIGNMENT = 0 ∧
        m.range.1 ≤ offset then
      if 2 ^ 64 ≤ offset + range_size then
        .panic
      else if offset + range_size ≤ m.range.2 then
        let rebased := offset - m.range.1
        if 2 ^ 64 ≤ rebased + range_size then
          .panic
        else
          match m.data.view rebased (rebased + range_size) with
          | some bv =>
            .ok bv.1 { b with mapping := some { m with data := bv.2 } }
          | none => .err .Operation
      else
        .err .Operation
    else
      .err .Operation

/-- `ScrollSetting` from the WebVTT bindings: the empty setting (the
default) or "up". -/
inductive ScrollSetting where
  | empty : ScrollSetting
  | up : ScrollSetting
deriving DecidableEq, Repr

/-- `VTTRegion`'s fields; percentage-valued fields are rationals (the
setters only compare against 0 and 100 and store, so ℚ models
`Finite<f64>` faithfully). -/
structure VTTRegion where
  id : String
  width : ℚ
  lines : Nat
  region_anchor_x : ℚ
  region_anchor_y : ℚ
  viewport_anchor_x : ℚ
  viewport_anchor_y : ℚ
  scroll : ScrollSetting
deriving DecidableEq, Repr

/-- `VTTRegion::new_inherited`: the freshly constructed region. -/
def VTTRegion.new_inherited : VTTRegion :=
  { id := "", width := 100, lines := 3,
    region_anchor_x := 0, region_anchor_y := 100,
    viewport_anchor_x := 0, viewport_anchor_y := 100,
    scroll := .empty }

/-- `VTTRegion::SetId`: accepts unconditionally. -/
def VTTRegion.SetId (r : VTTRegion) (v : String) : VTTRegion × Option Error :=
  ({ r with id := v }, none)

/-- `VTTRegion::SetWidth`: rejects values outside [0, 100] with
`Error::IndexSize`, leaving the region unchanged. -/
def VTTRegion.SetWidth (r : VTTRegion) (v : ℚ) : VTTRegion × Option Error :=
  if v < 0 ∨ 100 < v then (r, some .IndexSize)
  else ({ r with width := v }, none)

/-- `VTTRegion::SetLines`: accepts unconditionally. -/
def VTTRegion.SetLines (r : VTTRegion) (v : Nat) : VTTRegion × Option Error :=
  ({ r with lines := v }, none)

/-- `VTTRegion::SetRegionAnchorX`: rejects values outside [0, 100]. -/
def VTTRegion.SetRegionAnchorX (r : VTTRegion) (v : ℚ) :
    VTTRegion × Option Error :=
  if v < 0 ∨ 100 < v then (r, some .IndexSize)
  else ({ r with region_anchor_x := v }, none)

/-- `VTTRegion::SetRegionAnchorY`: rejects values outside [0, 100]. -/
def VTTRegion.SetRegionAnchorY (r : VTTRegion) (v : ℚ) :
    VTTRegion × Option Error :=
  if v < 0 ∨ 100 < v then (r, some .IndexSize)
  else ({ r with region_anchor_y := v }, none)

/-- `VTTRegion::SetViewportAnchorX`: rejects values outside [0, 100]. -/
def VTTRegion.SetViewportAnchorX (r : VTTRegion) (v : ℚ) :
    VTTRegion × Option Error :=
  if v < 0 ∨ 100 < v then (r, some .IndexSize)
  else ({ r with viewport_anchor_x := v }, none)

/-- `VTTRegion::SetViewportAnchorY`: rejects values outside [0, 100]. -/
def VTTRegion.SetViewportAnchorY (r : VTTRegion) (v : ℚ) :
    VTTRegion × Option Error :=
  if v < 0 ∨ 100 < v then (r, some .IndexSize)
  else ({ r with viewport_anchor_y := v }, none)

/-- `VTTRegion::SetScroll`: accepts unconditionally. -/
def VTTRegion.SetScroll (r : VTTRegion) (v : ScrollSetting) :
    VTTRegion × Option Error :=
  ({ r with scroll := v }, none)

theorem set_append_length {α : Type} (ps : List α) (a b : α) :
    (ps ++ [a]).set ps.length b = ps ++ [b] := by
  induction ps with
  | nil => rfl
  | cons x xs ih => simp [ih]

/-- C9: every percentage-valued setter of the region (width,
regionAnchorX/Y, viewportAnchorX/Y) rejects a value outside [0, 100] with
the range error `IndexSize` and leaves the region unchanged, and accepts
and stores any value inside [0, 100]; id, lines and scroll accept any
value unconditionally; a fresh region has width 100, lines 3, region
anchor (0, 100) and viewport anchor (0, 100). -/
theorem C9_region_setters (r : VTTRegion) (v : ℚ) (s : String) (n : Nat)
    (sc : ScrollSetting) :
    ((v < 0 ∨ 100 < v) →
      r.SetWidth v = (r, some .IndexSize) ∧
      r.SetRegionAnchorX v = (r, some .IndexSize) ∧
      r.SetRegionAnchorY v = (r, some .IndexSize) ∧
      r.SetViewportAnchorX v = (r, some .IndexSize) ∧
      r.SetViewportAnchorY v = (r, some .IndexSize)) ∧
    (0 ≤ v → v ≤ 100 →
      r.SetWidth v = ({ r with width := v }, none) ∧
      r.SetRegionAnchorX v = ({ r with region_anchor_x := v }, none) ∧
      r.SetRegionAnchorY v = ({ r with region_anchor_y := v }, none) ∧
      r.SetViewportAnchorX v = ({ r with viewport_anchor_x := v }, none) ∧
      r.SetViewportAnchorY v = ({ r with viewport_anchor_y := v }, none)) ∧
    r.SetId s = ({ r with id := s }, none) ∧
    r.SetLines n = ({ r with lines := n }, none) ∧
    r.SetScroll sc = ({ r with scroll := sc }, none) ∧
    VTTRegion.new_inherited.width = 100 ∧
    VTTRegion.new_inherited.lines = 3 ∧
    VTTRegion.new_inherited.region_anchor_x = 0 ∧
    VTTRegion.new_inherited.region_anchor_y = 100 ∧
    VTTRegion.new_inherited.viewport_anchor_x = 0 ∧
    VTTRegion.new_inherited.viewport_anchor_y = 100 := by
  refine ⟨fun h => ?_, fun h0 h100 => ?_, rfl, rfl, rfl, rfl, rfl, rfl, rfl,
    rfl, rfl⟩
  · exact ⟨if_pos h, if_pos h, if_pos h, if_pos h, if_pos h⟩
  · have hn : ¬(v < 0 ∨ 100 < v) := by
      push_neg
      exact ⟨h0, h100⟩
    exact ⟨if_neg hn, if_neg hn, if_neg hn, if_neg hn, if_neg hn⟩

/-- Witness for C9: a fresh region rejects width 150 unchanged and accepts
width 50. -/
theorem C9_region_setters_witness :
    VTTRegion.new_inherited.SetWidth 150 =
      (VTTRegion.new_inherited, some .IndexSize) ∧
    VTTRegion.new_inherited.SetWidth 50 =
      ({ VTTRegion.new_inherited with width := 50 }, none) := by
  refine ⟨((C9_region_setters VTTRegion.new_inherited 150 "" 0 .empty).1
      (by norm_num)).1,
    ((C9_region_setters VTTRegion.new_inherited 50 "" 0 .empty).2.1
      (by norm_num) (by norm_num)).1⟩

/-- C10: `ActiveBufferMapping::new` computes its size as
`range.end - range.start` in unsigned arithmetic, so it is total only
under `range.start ≤ range.end` (underflow is a program error); under that
precondition it never panics and, when the size also fits the
safe-integer ceiling (and hence the 64-bit host size type), returns a
mapping whose block is zero-initialized and exactly
`range.end - range.start` bytes long. -/
theorem C10_active_mapping_new (mode : Nat) (range : Nat × Nat) :
    (range.2 < range.1 → ActiveBufferMapping.new mode range = .panic) ∧
    (range.1 ≤ range.2 →
      ActiveBufferMapping.new mode range ≠ .panic ∧
      (range.2 - range.1 ≤ 2 ^ 53 - 1 →
        ActiveBufferMapping.new mode range =
          .ok { data := DataBlock.new_zeroed (range.2 - range.1),
                mode := mode, range := range } ∧
        (DataBlock.new_zeroed (range.2 - range.1)).data =
          List.replicate (range.2 - range.1) 0 ∧
        (DataBlock.new_zeroed (range.2 - range.1)).data.length =
          range.2 - range.1)) := by
  constructor
  · intro h
    unfold ActiveBufferMapping.new
    rw [if_pos h]
  · intro h
    constructor
    · unfold ActiveBufferMapping.new
      rw [if_neg (by omega)]
      split_ifs <;> simp
    · intro hsz
      unfold ActiveBufferMapping.new
      rw [if_neg (by omega), if_neg (by omega), if_neg (by omega)]
      exact ⟨rfl, rfl, by simp [DataBlock.new_zeroed]⟩

/-- Witness for C10: a 4-byte mapping is built zero-filled, and an
inverted range is an arithmetic program error. -/
theorem C10_active_mapping_new_witness :
    ActiveBufferMapping.new 2 (0, 4) =
      .ok { data := DataBlock.new_zeroed 4, mode := 2, range := (0, 4) } ∧
    ActiveBufferMapping.new 2 (5, 3) = .panic := by
  refine ⟨(((C10_active_mapping_new 2 (0, 4)).2 (by norm_num)).2
      (by norm_num)).1, (C10_active_mapping_new 2 (5, 3)).1 (by norm_num)⟩

/-- C2: a second `MapAsync` while a map request is pending immediately
rejects the fresh promise with an operation error, sends nothing on the
channel, dispatches no validation error, and leaves the buffer — in
particular the prior pending slot and the mapping — and every existing
promise unchanged. -/
theorem C2_mapAsync_second_request (b : GPUBuffer) (ps : List PromiseState)
    (channelOk deviceLost : Bool) (mode offset : Nat) (size : Option Nat)
    (q : Nat) (hq : b.pending_map = some q) :
    b.MapAsync ps channelOk deviceLost mode offset size =
      { buffer := b, promises := ps ++ [PromiseState.rejected .Operation],
        sent := [], warnings := 0, validationErrors := 0, panicked := false,
        promiseId := ps.length } := by
  unfold GPUBuffer.MapAsync
  rw [if_pos (by simp [hq])]
  simp [rejectPromise, set_append_length]

/-- Witness for C2: with promise 0 pending, a second request rejects the
fresh promise 1 and changes nothing else. -/
theorem C2_mapAsync_second_request_witness :
    GPUBuffer.MapAsync
        { buffer := 7, deviceId := 5, size := 256, usage := 0,
          pending_map := some 0, mapping := none }
        [PromiseState.pending] true false 1 0 none =
      { buffer :=
          { buffer := 7, deviceId := 5, size := 256, usage := 0,
            pending_map := some 0, mapping := none },
        promises := [PromiseState.pending, PromiseState.rejected .Operation],
        sent := [], warnings := 0, validationErrors := 0, panicked := false,
        promiseId := 1 } :=
  C2_mapAsync_second_request _ _ true false 1 0 none 0 rfl

/-- C6: a completion (success or failure) whose promise is not the
currently pending one is discarded and mutates no buffer state: the
pending slot, the mapping and its Shared Memory Block, and the promise
store are left exactly as they were, and nothing is sent. -/
theorem C6_stale_completion (b : GPUBuffer) (ps : List PromiseState)
    (deviceLost : Bool) (p : Nat) (wgpu : MappingPayload)
    (hp : b.pending_map ≠ some p) :
    (b.map_failure ps deviceLost p).buffer = b ∧
    (b.map_failure ps deviceLost p).promises = ps ∧
    (b.map_failure ps deviceLost p).sent = [] ∧
    (b.map_success ps p wgpu).buffer = b ∧
    (b.map_success ps p wgpu).promises = ps ∧
    (b.map_success ps p wgpu).sent = [] := by
  unfold GPUBuffer.map_failure GPUBuffer.map_success
  rw [if_pos hp, if_pos hp]
  exact ⟨rfl, rfl, rfl, rfl, rfl, rfl⟩

/-- Witness for C6: a stale failure and a stale success on a buffer whose
pending promise is 1 leave the state untouched. -/
theorem C6_stale_completion_witness :
    (GPUBuffer.map_failure
        { buffer := 7, deviceId := 5, size := 256, usage := 0,
          pending_map := some 1, mapping := none }
        [PromiseState.rejected .Operation, PromiseState.pending]
        false 0).buffer =
      { buffer := 7, deviceId := 5, size := 256, usage := 0,
        pending_map := some 1, mapping := none } ∧
    (GPUBuffer.map_success
        { buffer := 7, deviceId := 5, size := 256, usage := 0,
          pending_map := some 1, mapping := none }
        [PromiseState.rejected .Operation, PromiseState.pending]
        0 { data := [], range := (0, 0), mode := .Read }).promises =
      [PromiseState.rejected .Operation, PromiseState.pending] := by
  refine ⟨(C6_stale_completion _ _ false 0
      { data := [], range := (0, 0), mode := .Read } (by simp)).1,
    (C6_stale_completion _ _ false 0
      { data := [], range := (0, 0), mode := .Read } (by simp)).2.2.2.2.1⟩

/-- C4: a success completion for the currently pending promise whose
delivered range has byte length over 2^53 - 1 rejects that promise with a
range error and clears the pending slot, never installs a mapping (the
mapping slot is exactly what it was), and sends nothing to the device. -/
theorem C4_oversized_map_length (b : GPUBuffer) (ps : List PromiseState)
    (p : Nat) (wgpu : MappingPayload)
    (hp : b.pending_map = some p)
    (hpend : promiseIsPending ps p = true)
    (hsz : 2 ^ 53 - 1 < wgpu.range.2 - wgpu.range.1) :
    b.map_success ps p wgpu =
      { buffer := { b with pending_map := none },
        promises := rejectPromise ps p (.Range "Over MAX_SAFE_INTEGER"),
        sent := [], panicked := false } := by
  unfold GPUBuffer.map_success
  rw [if_neg (by simp [hp]), if_neg (by simp [hpend])]
  unfold ActiveBufferMapping.new
  rw [if_neg (by omega), if_pos (by omega)]

/-- Witness for C4: a success completion delivering range `[0, 2^53)` to
the pending promise 0 rejects it with the range error and installs no
mapping. -/
theorem C4_oversized_map_length_witness :
    GPUBuffer.map_success
        { buffer := 7, deviceId := 5, size := 256, usage := 0,
          pending_map := some 0, mapping := none }
        [PromiseState.pending] 0
        { data := [], range := (0, 2 ^ 53), mode := .Read } =
      { buffer :=
          { buffer := 7, deviceId := 5, size := 256, usage := 0,
            pending_map := none, mapping := none },
        promises := [PromiseState.rejected (.Range "Over MAX_SAFE_INTEGER")],
        sent := [], panicked := false } :=
  C4_oversized_map_length _ _ 0 _ rfl rfl (by norm_num)

/-- C5: unmap on a buffer holding a write-mode mapping delivers an unmap
message whose payload is exactly the block's current bytes together with
the mapping's range in write mode; a read-only mapping delivers an unmap
message with no payload; in both cases all outstanding views are
invalidated (the dropped block's view list is emptied), the mapping is
cleared and the state afterwards is Unmapped. -/
theorem C5_unmap_writeback (b : GPUBuffer) (ps : List PromiseState)
    (m : ActiveBufferMapping) (hm : b.mapping = some m) :
    (GPUMapModeConstants.WRITE ≤ m.mode →
      (b.Unmap ps true).sent =
        [.UnmapBuffer b.buffer
          (some { data := m.data.data, range := m.range,
                  mode := HostMap.Write })]) ∧
    (m.mode < GPUMapModeConstants.WRITE →
      (b.Unmap ps true).sent = [.UnmapBuffer b.buffer none]) ∧
    (b.Unmap ps true).droppedMapping =
      some { m with data := m.data.clear_views } ∧
    (m.data.clear_views).views = [] ∧
    (m.data.clear_views).data = m.data.data ∧
    (b.Unmap ps true).buffer.mapping = none ∧
    (b.Unmap ps true).buffer.pending_map = none ∧
    (b.Unmap ps true).buffer.MapState = .Unmapped := by
  obtain ⟨bid, dev, sz, us, pm, mp⟩ := b
  simp only [GPUBuffer.mapping] at hm
  subst hm
  refine ⟨fun hw => ?_, fun hr => ?_, ?_, rfl, rfl, ?_, ?_, ?_⟩
  · simp [GPUBuffer.Unmap, DataBlock.clear_views, if_pos hw]
  · simp [GPUBuffer.Unmap, DataBlock.clear_views, if_neg (by omega : ¬GPUMapModeConstants.WRITE ≤ m.mode)]
  · by_cases hw : GPUMapModeConstants.WRITE ≤ m.mode <;>
      simp [GPUBuffer.Unmap, DataBlock.clear_views, hw]
  · by_cases hw : GPUMapModeConstants.WRITE ≤ m.mode <;>
      simp [GPUBuffer.Unmap, hw]
  · by_cases hw : GPUMapModeConstants.WRITE ≤ m.mode <;>
      simp [GPUBuffer.Unmap, hw]
  · by_cases hw : GPUMapModeConstants.WRITE ≤ m.mode <;>
      simp [GPUBuffer.Unmap, GPUBuffer.MapState, hw]

/-- Witness for C5: unmapping a write-mode 4-byte mapping forwards the
four bytes with range and write mode; the state afterwards is Unmapped. -/
theorem C5_unmap_writeback_witness :
    (GPUBuffer.Unmap
        { buffer := 7, deviceId := 5, size := 256, usage := 0,
          pending_map := none,
          mapping := some
            { data := { data := [1, 2, 3, 4], views := [(0, 4)] },
              mode := 2, range := (0, 4) } }
        [] true).sent =
      [.UnmapBuffer 7
        (some { data := [1, 2, 3, 4], range := (0, 4),
                mode := HostMap.Write })] ∧
    (GPUBuffer.Unmap
        { buffer := 7, deviceId := 5, size := 256, usage := 0,
          pending_map := none,
          mapping := some
            { data := { data := [1, 2, 3, 4], views := [(0, 4)] },
              mode := 2, range := (0, 4) } }
        [] true).buffer.MapState = .Unmapped := by
  refine ⟨(C5_unmap_writeback _ [] _ rfl).1 (by decide), ?_⟩
  exact (C5_unmap_writeback _ [] _ rfl).2.2.2.2.2.2.2

/-- C8: Unmap is safe to call from any state and never fails observably:
a pending promise is rejected with Abort and its slot cleared regardless
of whether a mapping exists; with no mapping the call has no further
effect; and a channel send failure changes neither the buffer nor the
promises — the message is merely dropped and one warning logged. -/
theorem C8_unmap_any_state (b : GPUBuffer) (ps : List PromiseState)
    (channelOk : Bool) :
    (∀ p, b.pending_map = some p →
      (b.Unmap ps channelOk).promises = rejectPromise ps p .Abort) ∧
    (b.pending_map = none → (b.Unmap ps channelOk).promises = ps) ∧
    (b.Unmap ps channelOk).buffer.pending_map = none ∧
    (b.Unmap ps channelOk).buffer.mapping = none ∧
    (b.mapping = none →
      (b.Unmap ps channelOk).buffer = { b with pending_map := none } ∧
      (b.Unmap ps channelOk).sent = [] ∧
      (b.Unmap ps channelOk).warnings = 0 ∧
      (b.Unmap ps channelOk).droppedMapping = none) ∧
    (b.Unmap ps channelOk).buffer = (b.Unmap ps true).buffer ∧
    (b.Unmap ps channelOk).promises = (b.Unmap ps true).promises ∧
    (b.Unmap ps channelOk).droppedMapping =
      (b.Unmap ps true).droppedMapping ∧
    (b.Unmap ps channelOk).warnings ≤ 1 := by
  obtain ⟨bid, dev, sz, us, pm, mp⟩ := b
  cases pm <;> cases mp <;> cases channelOk <;>
    simp [GPUBuffer.Unmap]

/-- Witness for C8: unmapping a pending, unmapped buffer over a broken
channel rejects the pending promise with Abort and warns at most once. -/
theorem C8_unmap_any_state_witness :
    (GPUBuffer.Unmap
        { buffer := 7, deviceId := 5, size := 256, usage := 0,
          pending_map := some 0, mapping := none }
        [PromiseState.pending] false).promises =
      rejectPromise [PromiseState.pending] 0 .Abort ∧
    (GPUBuffer.Unmap
        { buffer := 7, deviceId := 5, size := 256, usage := 0,
          pending_map := some 0, mapping := none }
        [PromiseState.pending] false).warnings ≤ 1 := by
  refine ⟨(C8_unmap_any_state _ [PromiseState.pending] false).1 0 rfl, ?_⟩
  exact (C8_unmap_any_state
    { buffer := 7, deviceId := 5, size := 256, usage := 0,
      pending_map := some 0, mapping := none }
    [PromiseState.pending] false).2.2.2.2.2.2.2.2

/-- Counterexample to C3: on a buffer in state Mapped with no pending
request, MapAsync does not reject the new request — it installs the fresh
promise as the new pending request (the promise stays unsettled) and
sends a map request to the device. -/
theorem C3_counterexample :
    GPUBuffer.MapState
      { buffer := 7, deviceId := 5, size := 256, usage := 0,
        pending_map := none,
        mapping := some { data := DataBlock.new_zeroed 4, mode := 2,
                          range := (0, 4) } } = .Mapped ∧
    (GPUBuffer.MapAsync
      { buffer := 7, deviceId := 5, size := 256, usage := 0,
        pending_map := none,
        mapping := some { data := DataBlock.new_zeroed 4, mode := 2,
                          range := (0, 4) } }
      [] true false 1 0 none).buffer.pending_map = some 0 ∧
    (GPUBuffer.MapAsync
      { buffer := 7, deviceId := 5, size := 256, usage := 0,
        pending_map := none,
        mapping := some { data := DataBlock.new_zeroed 4, mode := 2,
                          range := (0, 4) } }
      [] true false 1 0 none).promises = [PromiseState.pending] ∧
    (GPUBuffer.MapAsync
      { buffer := 7, deviceId := 5, size := 256, usage := 0,
        pending_map := none,
        mapping := some { data := DataBlock.new_zeroed 4, mode := 2,
                          range := (0, 4) } }
      [] true false 1 0 none).sent =
      [.BufferMapAsync 7 5 .Read 0 none] := by
  decide

/-- C3 (amended): MapAsync rejects a new request only when a map request
is already pending. On a buffer in state Mapped with no pending request,
a call with a valid mode over a working channel installs the fresh
promise as the new pending request, sends a BufferMapAsync request to the
device, leaves the mapping untouched and leaves the fresh promise
unsettled. -/
theorem C3_mapAsync_while_mapped (b : GPUBuffer) (ps : List PromiseState)
    (deviceLost : Bool) (mode offset : Nat) (size : Option Nat)
    (hpend : b.pending_map = none)
    (hmap : b.mapping.isSome = true)
    (hmode : mode = GPUMapModeConstants.READ ∨
      mode = GPUMapModeConstants.WRITE) :
    b.MapState = .Mapped ∧
    b.MapAsync ps true deviceLost mode offset size =
      { buffer := { b with pending_map := some ps.length },
        promises := ps ++ [PromiseState.pending],
        sent := [.BufferMapAsync b.buffer b.deviceId
          (if mode = GPUMapModeConstants.READ then .Read else .Write)
          offset size],
        warnings := 0, validationErrors := 0, panicked := false,
        promiseId := ps.length } := by
  constructor
  · simp [GPUBuffer.MapState, hmap]
  · unfold GPUBuffer.MapAsync
    rw [if_neg (by simp [hpend]), if_pos hmode]
    rfl

/-- Witness for C3: a concrete Mapped buffer accepts a write-mode map
request and installs promise 0 as pending. -/
theorem C3_mapAsync_while_mapped_witness :
    GPUBuffer.MapAsync
        { buffer := 7, deviceId := 5, size := 256, usage := 0,
          pending_map := none,
          mapping := some { data := DataBlock.new_zeroed 4, mode := 2,
                            range := (0, 4) } }
        [] true false 2 0 (some 4) =
      { buffer :=
          { buffer := 7, deviceId := 5, size := 256, usage := 0,
            pending_map := some 0,
            mapping := some { data := DataBlock.new_zeroed 4, mode := 2,
                              range := (0, 4) } },
        promises := [PromiseState.pending],
        sent := [.BufferMapAsync 7 5 .Write 0 (some 4)],
        warnings := 0, validationErrors := 0, panicked := false,
        promiseId := 0 } :=
  (C3_mapAsync_while_mapped
    { buffer := 7, deviceId := 5, size := 256, usage := 0,
      pending_map := none,
      mapping := some { data := DataBlock.new_zeroed 4, mode := 2,
                        range := (0, 4) } }
    [] false 2 0 (some 4) rfl rfl (Or.inr rfl)).2

/-- Counterexample to C7: a failure completion matching the pending
promise of a buffer that also holds an Active Mapping (reachable, since
MapAsync does not reject while Mapped) clears the pending slot but leaves
the state Mapped, not Unmapped as the claim states. -/
theorem C7_counterexample :
    (GPUBuffer.map_failure
      { buffer := 7, deviceId := 5, size := 256, usage := 0,
        pending_map := some 0,
        mapping := some { data := DataBlock.new_zeroed 4, mode := 2,
                          range := (0, 4) } }
      [PromiseState.pending] false 0).buffer.pending_map = none ∧
    (GPUBuffer.map_failure
      { buffer := 7, deviceId := 5, size := 256, usage := 0,
        pending_map := some 0,
        mapping := some { data := DataBlock.new_zeroed 4, mode := 2,
                          range := (0, 4) } }
      [PromiseState.pending] false 0).promises =
      [PromiseState.rejected .Operation] ∧
    (GPUBuffer.map_failure
      { buffer := 7, deviceId := 5, size := 256, usage := 0,
        pending_map := some 0,
        mapping := some { data := DataBlock.new_zeroed 4, mode := 2,
                          range := (0, 4) } }
      [PromiseState.pending] false 0).buffer.MapState ≠ .Unmapped := by
  decide

/-- C7 (amended): on a failure completion matching the current pending
promise, the pending slot is cleared and the promise is rejected with an
abort error when the owning device is lost and an operation error
otherwise; the state becomes Unmapped when no Active Mapping is installed
and remains Mapped when one is. -/
theorem C7_map_failure_matching (b : GPUBuffer) (ps : List PromiseState)
    (deviceLost : Bool) (p : Nat)
    (hp : b.pending_map = some p)
    (hpend : promiseIsPending ps p = true) :
    (b.map_failure ps deviceLost p).buffer = { b with pending_map := none } ∧
    (b.map_failure ps deviceLost p).promises =
      rejectPromise ps p (if deviceLost then .Abort else .Operation) ∧
    (b.map_failure ps deviceLost p).sent = [] ∧
    (b.map_failure ps deviceLost p).panicked = false ∧
    (b.mapping = none →
      (b.map_failure ps deviceLost p).buffer.MapState = .Unmapped) ∧
    (b.mapping.isSome = true →
      (b.map_failure ps deviceLost p).buffer.MapState = .Mapped) := by
  unfold GPUBuffer.map_failure
  rw [if_neg (by simp [hp]), if_neg (by simp [hpend])]
  refine ⟨rfl, rfl, rfl, rfl, fun hm => ?_, fun hm => ?_⟩
  · simp [GPUBuffer.MapState, hm]
  · simp [GPUBuffer.MapState, hm]

/-- Witness for C7: a matching failure on an unmapped, pending buffer with
a lost device rejects promise 0 with Abort and leaves state Unmapped. -/
theorem C7_map_failure_matching_witness :
    (GPUBuffer.map_failure
      { buffer := 7, deviceId := 5, size := 256, usage := 0,
        pending_map := some 0, mapping := none }
      [PromiseState.pending] true 0).promises =
      rejectPromise [PromiseState.pending] 0 .Abort ∧
    (GPUBuffer.map_failure
      { buffer := 7, deviceId := 5, size := 256, usage := 0,
        pending_map := some 0, mapping := none }
      [PromiseState.pending] true 0).buffer.MapState = .Unmapped := by
  refine ⟨?_, (C7_map_failure_matching _ [PromiseState.pending] true 0
    rfl rfl).2.2.2.2.1 rfl⟩
  exact (C7_map_failure_matching
    { buffer := 7, deviceId := 5, size := 256, usage := 0,
      pending_map := some 0, mapping := none }
    [PromiseState.pending] true 0 rfl rfl).2.1

/-- Counterexample to C1: with a 256-byte mapping over [0, 256), the call
getMappedRange(2^64 - 8, 16) passes the alignment and start checks but
violates the bounds condition, and the outcome is an arithmetic program
error (the u64 addition `offset + range_size` in the bounds check
overflows — a panic under Rust's checked arithmetic), not an operation
error as the claim requires for every violation. -/
theorem C1_counterexample :
    GPUBuffer.GetMappedRange
        { buffer := 7, deviceId := 5, size := 256, usage := 0,
          pending_map := none,
          mapping := some { data := DataBlock.new_zeroed 256, mode := 2,
                            range := (0, 256) } }
        (2 ^ 64 - 8) (some 16) = .panic ∧
    GPUBuffer.GetMappedRange
        { buffer := 7, deviceId := 5, size := 256, usage := 0,
          pending_map := none,
          mapping := some { data := DataBlock.new_zeroed 256, mode := 2,
                            range := (0, 256) } }
        (2 ^ 64 - 8) (some 16) ≠ .err .Operation := by
  decide

/-- C1 (amended): getMappedRange succeeds iff a mapping is installed
(state Mapped), offset is a multiple of the map alignment unit, the
resolved size is a multiple of the copy alignment unit, offset ≥
mapping.start and offset + size ≤ mapping.end; when size is omitted it
resolves to declaredSize − offset (saturating at 0); every violation
fails with an operation error — never a range error — except that when
the alignment and start checks pass and offset + resolvedSize overflows
the 64-bit size type, the bounds check itself is an arithmetic program
error (a panic under Rust's checked arithmetic) rather than an operation
error. -/
theorem C1_getMappedRange (b : GPUBuffer) (m : ActiveBufferMapping)
    (offset rsz : Nat) (osize : Option Nat)
    (hm : b.mapping = some m)
    (hlen : m.data.data.length = m.range.2 - m.range.1)
    (hr2 : m.range.2 < 2 ^ 64)
    (hrsz : rsz = osize.getD (b.size - offset)) :
    ((∃ bytes b2, b.GetMappedRange offset osize = .ok bytes b2) ↔
      (offset % MAP_ALIGNMENT = 0 ∧ rsz % COPY_BUFFER_ALIGNMENT = 0 ∧
        m.range.1 ≤ offset ∧ offset + rsz ≤ m.range.2)) ∧
    (b.GetMappedRange offset osize = .panic ↔
      (offset % MAP_ALIGNMENT = 0 ∧ rsz % COPY_BUFFER_ALIGNMENT = 0 ∧
        m.range.1 ≤ offset ∧ 2 ^ 64 ≤ offset + rsz)) ∧
    (¬(offset % MAP_ALIGNMENT = 0 ∧ rsz % COPY_BUFFER_ALIGNMENT = 0 ∧
        m.range.1 ≤ offset ∧ offset + rsz ≤ m.range.2) →
      ¬(offset % MAP_ALIGNMENT = 0 ∧ rsz % COPY_BUFFER_ALIGNMENT = 0 ∧
        m.range.1 ≤ offset ∧ 2 ^ 64 ≤ offset + rsz) →
      b.GetMappedRange offset osize = .err .Operation) ∧
    (∀ b3 : GPUBuffer, b3.mapping = none →
      b3.GetMappedRange offset osize = .err .Operation) := by
  have hnone : ∀ b3 : GPUBuffer, b3.mapping = none →
      b3.GetMappedRange offset osize = .err .Operation := by
    intro b3 h3
    simp only [GPUBuffer.GetMappedRange, h3]
  by_cases habc : offset % MAP_ALIGNMENT = 0 ∧
      rsz % COPY_BUFFER_ALIGNMENT = 0 ∧ m.range.1 ≤ offset
  · by_cases hov : 2 ^ 64 ≤ offset + rsz
    · have hres : b.GetMappedRange offset osize = .panic := by
        simp only [GPUBuffer.GetMappedRange, hm]
        rw [← hrsz, if_pos habc, if_pos hov]
      refine ⟨?_, ?_, ?_, hnone⟩
      · refine iff_of_false ?_ ?_
        · rintro ⟨bytes, b2, hb⟩
          rw [hres] at hb
          simp at hb
        · rintro ⟨h1, h2, h3, h4⟩
          omega
      · exact iff_of_true hres ⟨habc.1, habc.2.1, habc.2.2, hov⟩
      · intro hns hnp
        exact absurd ⟨habc.1, habc.2.1, habc.2.2, hov⟩ hnp
    · by_cases hd : offset + rsz ≤ m.range.2
      · have heq : b.GetMappedRange offset osize =
            .ok ((m.data.data.drop (offset - m.range.1)).take
                (offset - m.range.1 + rsz - (offset - m.range.1)))
              { b with mapping := some { m with data :=
                { m.data with views :=
                  (offset - m.range.1, offset - m.range.1 + rsz) ::
                    m.data.views } } } := by
          simp only [GPUBuffer.GetMappedRange, hm]
          rw [← hrsz, if_pos habc, if_neg hov, if_pos hd,
            if_neg (by omega : ¬2 ^ 64 ≤ offset - m.range.1 + rsz)]
          unfold DataBlock.view
          rw [if_pos ⟨Nat.le_add_right _ _, by rw [hlen]; omega⟩]
        have hres : ∃ bytes b2,
            b.GetMappedRange offset osize = .ok bytes b2 := ⟨_, _, heq⟩
        refine ⟨?_, ?_, ?_, hnone⟩
        · exact iff_of_true hres ⟨habc.1, habc.2.1, habc.2.2, hd⟩
        · refine iff_of_false ?_ ?_
          · intro hp
            obtain ⟨bytes, b2, hb⟩ := hres
            rw [hp] at hb
            simp at hb
          · rintro ⟨h1, h2, h3, h4⟩
            omega
        · intro hns hnp
          exact absurd ⟨habc.1, habc.2.1, habc.2.2, hd⟩ hns
      · have hres : b.GetMappedRange offset osize = .err .Operation := by
          simp only [GPUBuffer.GetMappedRange, hm]
          rw [← hrsz, if_pos habc, if_neg hov, if_neg hd]
        refine ⟨?_, ?_, ?_, hnone⟩
        · refine iff_of_false ?_ ?_
          · rintro ⟨bytes, b2, hb⟩
            rw [hres] at hb
            simp at hb
          · rintro ⟨h1, h2, h3, h4⟩
            exact hd h4
        · refine iff_of_false ?_ ?_
          · intro hp
            rw [hres] at hp
            simp at hp
          · rintro ⟨h1, h2, h3, h4⟩
            exact hov h4
        · intro hns hnp
          exact hres
  · have hres : b.GetMappedRange offset osize = .err .Operation := by
      simp only [GPUBuffer.GetMappedRange, hm]
      rw [← hrsz, if_neg habc]
    refine ⟨?_, ?_, ?_, hnone⟩
    · refine iff_of_false ?_ ?_
      · rintro ⟨bytes, b2, hb⟩
        rw [hres] at hb
        simp at hb
      · rintro ⟨h1, h2, h3, h4⟩
        exact habc ⟨h1, h2, h3⟩
    · refine iff_of_false ?_ ?_
      · intro hp
        rw [hres] at hp
        simp at hp
      · rintro ⟨h1, h2, h3, h4⟩
        exact habc ⟨h1, h2, h3⟩
    · intro hns hnp
      exact hres

/-- Witness for C1: on an 8-byte mapping over [0, 8), the aligned
in-bounds call getMappedRange(0, 8) succeeds, and the misaligned call
getMappedRange(3, 4) fails with an operation error. -/
theorem C1_getMappedRange_witness :
    (∃ bytes b2,
      GPUBuffer.GetMappedRange
        { buffer := 7, deviceId := 5, size := 8, usage := 0,
          pending_map := none,
          mapping := some { data := DataBlock.new_zeroed 8, mode := 2,
                            range := (0, 8) } }
        0 (some 8) = .ok bytes b2) ∧
    GPUBuffer.GetMappedRange
        { buffer := 7, deviceId := 5, size := 8, usage := 0,
          pending_map := none,
          mapping := some { data := DataBlock.new_zeroed 8, mode := 2,
                            range := (0, 8) } }
        3 (some 4) = .err .Operation := by
  constructor
  · exact (C1_getMappedRange
      { buffer := 7, deviceId := 5, size := 8, usage := 0,
        pending_map := none,
        mapping := some { data := DataBlock.new_zeroed 8, mode := 2,
                          range := (0, 8) } }
      { data := DataBlock.new_zeroed 8, mode := 2, range := (0, 8) }
      0 8 (some 8) rfl (by decide) (by decide)
      rfl).1.mpr ⟨by decide, by decide, by decide, by decide⟩
  · exact (C1_getMappedRange
      { buffer := 7, deviceId := 5, size := 8, usage := 0,
        pending_map := none,
        mapping := some { data := DataBlock.new_zeroed 8, mode := 2,
                          range := (0, 8) } }
      { data := DataBlock.new_zeroed 8, mode := 2, range := (0, 8) }
      3 4 (some 4) rfl (by decide) (by decide)
      rfl).2.2.1 (by decide) (by decide)
